import Mathlib

/-!
Verification of the read-consistency cache layer of the indy-sdk client
(`src/libindy/src/api/cache.rs`, `src/libindy/src/api/ledger.rs`).

The repository excerpt contains the external-call marshaling layer.  The
definitions below embed that layer directly; components that the excerpt only
invokes (the freshness policy, the cache store, the cache coordinator, the
state-proof parser registry, the response-metadata extractor and the command
dispatcher) are modelled from the specification, as marked in their doc
comments.
-/

/-- Error taxonomy of the core, from spec section 7, plus the
ledger-side invalid-transaction error used by response-metadata extraction. -/
inductive IndyErr where
  | invalidArgument
  | staleRequired
  | unknownTransactionType
  | stateProofVerificationFailed
  | transportFailure
  | storageFailure
  | invalidTransaction
deriving DecidableEq, Repr

/-- Artifact kinds cached by the layer (spec section 3, CacheKey). -/
inductive ArtifactKind where
  | schema
  | credDef
deriving DecidableEq, Repr

/-- Identity of a cached artifact within one wallet: artifact kind and
artifact id string (spec section 3, CacheKey; the wallet is fixed per call). -/
abbrev CacheKey := ArtifactKind × String

/-- A stored artifact plus staleness metadata (spec section 3, CacheEntry):
opaque serialized payload and the fetch timestamp in seconds since epoch. -/
structure CacheEntry where
  payload : String
  fetched_at : Int
deriving DecidableEq, Repr

/-- Modelled from the spec: the options type `GetCacheOptions` of the missing
module `domain/cache.rs`, whose fields are the four knobs documented on
`indy_get_schema` in `src/libindy/src/api/cache.rs` (noCache, noUpdate,
noStore all default false; minFresh defaults to -1). -/
structure GetCacheOptions where
  noCache : Bool
  noUpdate : Bool
  noStore : Bool
  minFresh : Int
deriving DecidableEq, Repr

/-- Minimal JSON value model for the `options_json` arguments. -/
inductive Json where
  | null
  | bool (b : Bool)
  | num (n : Int)
  | str (s : String)
  | obj (fields : List (String × Json))

/-- Field access on a JSON object; `none` on non-objects or absent keys. -/
def Json.getField : Json → String → Option Json
  | .obj fields, name => fields.lookup name
  | _, _ => none

/-- Modelled from the spec: deserialization of one optional boolean field of
`GetCacheOptions` (missing module `domain/cache.rs`); an absent field takes
the documented default `false`, a present field must be a JSON boolean,
unknown fields elsewhere in the object are ignored. -/
def Json.boolField (j : Json) (name : String) : Except IndyErr Bool :=
  match j.getField name with
  | none => .ok false
  | some (.bool b) => .ok b
  | some _ => .error .invalidArgument

/-- Modelled from the spec: deserialization of the optional integer field
`minFresh` of `GetCacheOptions` (missing module `domain/cache.rs`); an absent
field takes the documented default `-1`. -/
def Json.intField (j : Json) (name : String) (dflt : Int) : Except IndyErr Int :=
  match j.getField name with
  | none => .ok dflt
  | some (.num n) => .ok n
  | some _ => .error .invalidArgument

/-- Modelled from the spec: full deserialization of `GetCacheOptions` from an
options JSON document (missing module `domain/cache.rs`). -/
def GetCacheOptions.fromJson (j : Json) : Except IndyErr GetCacheOptions :=
  match j with
  | .obj _ => do
    let noCache ← j.boolField "noCache"
    let noUpdate ← j.boolField "noUpdate"
    let noStore ← j.boolField "noStore"
    let minFresh ← j.intField "minFresh" (-1)
    .ok ⟨noCache, noUpdate, noStore, minFresh⟩
  | _ => .error .invalidArgument

/-- Options parsing performed by `indy_get_cred_def`
(`src/libindy/src/api/cache.rs` line 46): the `options_json` argument is
deserialized as `GetCacheOptions`. -/
def indy_get_cred_def_options : Json → Except IndyErr GetCacheOptions :=
  GetCacheOptions.fromJson

/-- Options parsing performed by `indy_get_schema`
(`src/libindy/src/api/cache.rs` line 104): the `options_json` argument is
deserialized as `GetCacheOptions`. -/
def indy_get_schema_options : Json → Except IndyErr GetCacheOptions :=
  GetCacheOptions.fromJson

/-- Outcome of the freshness policy (spec section 4.1). -/
inductive Decision where
  | serveCached
  | refetch
  | errorStaleRequired
deriving DecidableEq, Repr

/-- Modelled from the spec: `FreshnessPolicy.decide` of spec section 4.1 (the
component is absent from the excerpt; only its options are marshaled in
`src/libindy/src/api/cache.rs`).  The rules, in order: no entry and noUpdate
set gives ErrorStaleRequired; no entry otherwise gives Refetch; entry present
and noCache set gives Refetch; entry present and minFresh = -1 gives
ServeCached; entry present and now - fetched_at <= minFresh gives ServeCached;
otherwise Refetch unless noUpdate, in which case ServeCached. -/
def FreshnessPolicy.decide (opts : GetCacheOptions) (entry : Option CacheEntry)
    (now : Int) : Decision :=
  match entry with
  | none => if opts.noUpdate then .errorStaleRequired else .refetch
  | some e =>
    if opts.noCache then .refetch
    else if opts.minFresh = -1 then .serveCached
    else if now - e.fetched_at ≤ opts.minFresh then .serveCached
    else if opts.noUpdate then .serveCached
    else .refetch

/-- Keyed storage of cache entries for one wallet (spec section 4.4). -/
abbrev CacheStore := List (CacheKey × CacheEntry)

/-- Modelled from the spec: `CacheStore.get` of spec section 4.4 (the store is
absent from the excerpt). -/
def CacheStore.get : CacheStore → CacheKey → Option CacheEntry
  | [], _ => none
  | (k, e) :: rest, key => if k = key then some e else CacheStore.get rest key

/-- Modelled from the spec: `CacheStore.put` of spec section 4.4 — upsert that
overwrites any prior entry for the key. -/
def CacheStore.put : CacheStore → CacheKey → CacheEntry → CacheStore
  | [], key, e => [(key, e)]
  | (k, e0) :: rest, key, e =>
    if k = key then (key, e) :: rest else (k, e0) :: CacheStore.put rest key e

/-- Modelled from the spec: `CacheStore.purge` of spec section 4.4 — for
minFresh = -1 delete every entry of the kind; otherwise delete every entry of
the kind whose age now - fetched_at exceeds minFresh.  Entries of the other
kind are untouched. -/
def CacheStore.purge (st : CacheStore) (kind : ArtifactKind)
    (minFresh now : Int) : CacheStore :=
  st.filter fun p =>
    if p.1.1 = kind then
      if minFresh = -1 then false
      else decide (now - p.2.fetched_at ≤ minFresh)
    else true

/-- Result of one coordinated schema GET: the delivered outcome, the store
after the call, and whether ConsensusFetcher was invoked. -/
structure GetOutcome where
  result : Except IndyErr String
  store : CacheStore
  fetcherCalled : Bool

/-- Modelled from the spec: the `CacheCoordinator` GET path of spec sections
4.5 and 7 (the coordinator is absent from the excerpt).  The coordinator reads
the entry for the key, evaluates `FreshnessPolicy.decide`, and: on ServeCached
returns the stored payload; on ErrorStaleRequired propagates StaleRequired; on
Refetch delivers the ConsensusFetcher outcome `fetchOutcome`, writing the
fetched payload to the store unless noStore is set — a failing store write
(`putFails`) degrades to the result simply not being cached and never fails
the call. -/
def CacheCoordinator.getSchema (opts : GetCacheOptions) (st : CacheStore)
    (key : CacheKey) (fetchOutcome : Except IndyErr String) (putFails : Bool)
    (now : Int) : GetOutcome :=
  match FreshnessPolicy.decide opts (CacheStore.get st key) now with
  | .serveCached =>
    match CacheStore.get st key with
    | some e => ⟨.ok e.payload, st, false⟩
    | none => ⟨.error .staleRequired, st, false⟩
  | .errorStaleRequired => ⟨.error .staleRequired, st, false⟩
  | .refetch =>
    match fetchOutcome with
    | .error e => ⟨.error e, st, true⟩
    | .ok payload =>
      if opts.noStore then ⟨.ok payload, st, true⟩
      else if putFails then ⟨.ok payload, st, true⟩
      else ⟨.ok payload, CacheStore.put st key ⟨payload, now⟩, true⟩

/-- State-proof callback pair registered for one transaction type: the parse
routine and its matching release routine, each an opaque function-pointer
identity across the FFI boundary
(`CustomTransactionParser` / `CustomFree` in `src/libindy/src/api/ledger.rs`). -/
structure SPCallbackPair where
  parseCb : Nat
  freeCb : Nat
deriving DecidableEq, Repr

/-- Process-wide mapping from transaction type tag to its registered
state-proof callback pair (spec section 4.2, StateProofRegistry). -/
abbrev SPRegistry := String → Option SPCallbackPair

/-- Modelled from the spec: `register` of spec section 4.2 — inserts or
replaces the entry for the tag (the registry behind the
`RegisterSPParser` command of `indy_register_transaction_parser_for_sp` is
absent from the excerpt). -/
def SPRegistry.register (reg : SPRegistry) (tag : String)
    (pr : SPCallbackPair) : SPRegistry :=
  fun t => if t = tag then some pr else reg t

/-- Modelled from the spec: `lookup` of spec section 4.2. -/
def SPRegistry.lookup (reg : SPRegistry) (tag : String) : Option SPCallbackPair :=
  reg tag

/-- Registry state after a sequence of register calls, applied in order. -/
def SPRegistry.applyAll (init : SPRegistry)
    (ops : List (String × SPCallbackPair)) : SPRegistry :=
  ops.foldl (fun r op => SPRegistry.register r op.1 op.2) init

/-- Freshness facts a ledger reply carries, each individually optional
(spec section 3, ResponseMetadata). -/
structure ResponseMetadata where
  seqNo : Option Nat
  txnTime : Option Nat
  lastSeqNo : Option Nat
  lastTxnTime : Option Nat
deriving DecidableEq, Repr

/-- Relevant content of a previously obtained ledger reply: its request type
tag and the four optional freshness fields. -/
structure ReplyInfo where
  txnType : String
  seqNo : Option Nat
  txnTime : Option Nat
  lastSeqNo : Option Nat
  lastTxnTime : Option Nat
deriving DecidableEq, Repr

/-- Transaction type tag of the GET_VALIDATOR_INFO administrative request. -/
def GET_VALIDATOR_INFO : String := "119"

/-- Modelled from the spec: the response-metadata extraction behind
`indy_get_response_metadata` (`src/libindy/src/api/ledger.rs`; the ledger
command handler is absent from the excerpt).  It returns the ResponseMetadata
shape for any reply, except that a GET_VALIDATOR_INFO response is explicitly
unsupported and yields an error. -/
def get_response_metadata (r : ReplyInfo) : Except IndyErr ResponseMetadata :=
  if r.txnType = GET_VALIDATOR_INFO then .error .invalidTransaction
  else .ok ⟨r.seqNo, r.txnTime, r.lastSeqNo, r.lastTxnTime⟩

instance {ε α : Type} [DecidableEq ε] [DecidableEq α] :
    DecidableEq (Except ε α) := fun a b =>
  match a, b with
  | .ok x, .ok y =>
    if h : x = y then .isTrue (congrArg Except.ok h)
    else .isFalse (fun hc => h (Except.ok.inj hc))
  | .error x, .error y =>
    if h : x = y then .isTrue (congrArg Except.error h)
    else .isFalse (fun hc => h (Except.error.inj hc))
  | .ok _, .error _ => .isFalse (fun hc => Except.noConfusion hc)
  | .error _, .ok _ => .isFalse (fun hc => Except.noConfusion hc)

/-- An in-flight asynchronous operation (spec section 3, PendingCommand): its
handle and the single outcome its execution will deliver. -/
structure PendingCommand where
  handle : Int
  outcome : Except IndyErr String
deriving DecidableEq, Repr

/-- One delivered completion: the handle it fires for and the one outcome. -/
structure Completion where
  handle : Int
  outcome : Except IndyErr String
deriving DecidableEq, Repr

/-- Modelled from the spec: the `CommandDispatcher` worker of spec section 4.6
(the `CommandExecutor` behind the API layer is absent from the excerpt).  The
worker dequeues commands in arrival order, executes each, and invokes the
completion routine exactly once per command with the command's single
outcome. -/
def CommandDispatcher.run : List PendingCommand → List Completion
  | [] => []
  | c :: rest => ⟨c.handle, c.outcome⟩ :: CommandDispatcher.run rest

/-- Synchronous FFI return codes used by the embedded entry points
(`ErrorCode` values of `indy_api_types`). -/
inductive ErrorCode where
  | Success
  | CommonInvalidParam2
  | CommonInvalidParam3
  | CommonInvalidParam4
  | CommonInvalidParam5
  | CommonInvalidParam6
  | CommonInvalidParam7
  | CommonInvalidStructure
deriving DecidableEq, Repr

/-- Commands the embedded ledger entry points may enqueue on the executor. -/
inductive LedgerCommand where
  | BuildAttribRequest (submitter target : String)
      (hash raw enc : Option String)
  | BuildGetAttribRequest (submitter : Option String) (target : String)
      (raw hash enc : Option String)
deriving DecidableEq, Repr

/-- Synchronous result of an embedded FFI entry point: the returned code and
the command dispatched to the executor, if any (no dispatch means the
callback is never invoked for this call). -/
structure FfiResult where
  code : ErrorCode
  dispatched : Option LedgerCommand
deriving DecidableEq, Repr

/-- Embedding of `indy_build_attrib_request`
(`src/libindy/src/api/ledger.rs` lines 502-543).  `didValid` stands for
`DidValue` validation and `jsonValid` for `serde_json::Value` parsing of the
`raw` argument, both performed by collaborators outside the excerpt.  Checks
run in source order: submitter_did (InvalidParam2), target_did
(InvalidParam3), raw as JSON (InvalidParam5), callback (InvalidParam7); then,
if hash, raw and enc are all absent, the call returns InvalidStructure
synchronously without dispatching; otherwise the command is sent. -/
def indy_build_attrib_request (didValid jsonValid : String → Bool)
    (submitter_did target_did hash raw enc : Option String) (cb : Bool) :
    FfiResult :=
  match submitter_did with
  | none => ⟨.CommonInvalidParam2, none⟩
  | some submitter =>
    if !didValid submitter then ⟨.CommonInvalidParam2, none⟩
    else match target_did with
      | none => ⟨.CommonInvalidParam3, none⟩
      | some target =>
        if !didValid target then ⟨.CommonInvalidParam3, none⟩
        else if (match raw with
                 | some r => !jsonValid r
                 | none => false) then ⟨.CommonInvalidParam5, none⟩
        else if !cb then ⟨.CommonInvalidParam7, none⟩
        else if raw.isNone && hash.isNone && enc.isNone then
          ⟨.CommonInvalidStructure, none⟩
        else
          ⟨.Success, some (.BuildAttribRequest submitter target hash raw enc)⟩

/-- Embedding of `indy_build_get_attrib_request`
(`src/libindy/src/api/ledger.rs` lines 564-605).  The submitter DID is
optional but must validate when present (InvalidParam2); target_did is
required (InvalidParam3); raw, hash and enc are plain optional strings; then
the callback check (InvalidParam7), the all-absent InvalidStructure check,
and the dispatch. -/
def indy_build_get_attrib_request (didValid : String → Bool)
    (submitter_did target_did raw hash enc : Option String) (cb : Bool) :
    FfiResult :=
  if (match submitter_did with
      | some s => !didValid s
      | none => false) then ⟨.CommonInvalidParam2, none⟩
  else match target_did with
    | none => ⟨.CommonInvalidParam3, none⟩
    | some target =>
      if !didValid target then ⟨.CommonInvalidParam3, none⟩
      else if !cb then ⟨.CommonInvalidParam7, none⟩
      else if raw.isNone && hash.isNone && enc.isNone then
        ⟨.CommonInvalidStructure, none⟩
      else
        ⟨.Success,
          some (.BuildGetAttribRequest submitter_did target raw hash enc)⟩

/-- Helper: with noCache set and noUpdate unset the freshness policy always
decides Refetch, whatever the entry. -/
theorem freshness_nocache_refetch (ns : Bool) (mf : Int)
    (entry : Option CacheEntry) (now : Int) :
    FreshnessPolicy.decide ⟨true, false, ns, mf⟩ entry now = .refetch := by
  cases entry <;> simp [FreshnessPolicy.decide]

/-- Claim C1, counterexample: `indy_get_cred_def` does not parse its options
into a narrower forceUpdate-only type — it uses the very same `GetCacheOptions`
parse as `indy_get_schema`, which recognizes `noCache` and silently ignores
`forceUpdate`. -/
theorem c1_distinct_options_types_counterexample :
    indy_get_cred_def_options = indy_get_schema_options
    ∧ indy_get_cred_def_options (.obj [("noCache", .bool true)]) =
        .ok ⟨true, false, false, -1⟩
    ∧ indy_get_cred_def_options (.obj [("forceUpdate", .bool true)]) =
        .ok ⟨false, false, false, -1⟩ :=
  ⟨rfl, rfl, rfl⟩

/-- Claim C1, amended: both get operations parse `options_json` into the same
shared `GetCacheOptions` type, whose knobs are noCache, noUpdate, noStore and
minFresh; the forceUpdate-only shape appears only in the doc comment of
`indy_get_cred_def`, not in the code. -/
theorem c1_shared_options_type :
    indy_get_cred_def_options = indy_get_schema_options
    ∧ indy_get_schema_options (.obj [("noCache", .bool true),
        ("noUpdate", .bool true), ("noStore", .bool true),
        ("minFresh", .num 5)]) = .ok ⟨true, true, true, 5⟩ :=
  ⟨rfl, rfl⟩

/-- Claim C2: the sentinel minFresh = -1 carries opposite extremal meanings —
a schema GET with minFresh = -1 (remaining options at their defaults) serves
any present cache entry regardless of its age, while a purge with
minFresh = -1 deletes every cached entry of the given artifact kind. -/
theorem c2_minfresh_sentinel :
    (∀ (e : CacheEntry) (st : CacheStore) (key : CacheKey)
        (f : Except IndyErr String) (pf : Bool) (now : Int),
      CacheStore.get st key = some e →
      CacheCoordinator.getSchema ⟨false, false, false, -1⟩ st key f pf now =
        ⟨.ok e.payload, st, false⟩)
    ∧ ∀ (st : CacheStore) (kind : ArtifactKind) (now : Int)
        (k : CacheKey) (e : CacheEntry),
      (k, e) ∈ CacheStore.purge st kind (-1) now → k.1 ≠ kind := by
  constructor
  · intro e st key f pf now h
    simp [CacheCoordinator.getSchema, FreshnessPolicy.decide, h]
  · intro st kind now k e hmem hk
    simp [CacheStore.purge, List.mem_filter, hk] at hmem

/-- Claim C2, witness at concrete inputs. -/
theorem c2_minfresh_sentinel_witness :
    CacheCoordinator.getSchema ⟨false, false, false, -1⟩
        [((ArtifactKind.schema, "s1"), ⟨"pay", 0⟩)] (ArtifactKind.schema, "s1")
        (.ok "fresh") false 1000 =
      ⟨.ok "pay", [((ArtifactKind.schema, "s1"), ⟨"pay", 0⟩)], false⟩
    ∧ (ArtifactKind.credDef, "c1").1 ≠ ArtifactKind.schema :=
  ⟨c2_minfresh_sentinel.1 ⟨"pay", 0⟩ _ _ _ _ _ (by decide),
   c2_minfresh_sentinel.2 [((ArtifactKind.credDef, "c1"), ⟨"p", 0⟩)]
      .schema 0 (ArtifactKind.credDef, "c1") ⟨"p", 0⟩ (by decide)⟩

/-- Claim C3: with noCache and noUpdate unset, the freshness boundary is
inclusive — for every cache entry and every non-negative minFresh, the policy
decides ServeCached exactly when now - fetched_at <= minFresh. -/
theorem c3_freshness_boundary (e : CacheEntry) (now m : Int) (ns : Bool)
    (h : 0 ≤ m) :
    FreshnessPolicy.decide ⟨false, false, ns, m⟩ (some e) now = .serveCached ↔
      now - e.fetched_at ≤ m := by
  have hm : ¬(m = -1) := by omega
  constructor
  · intro hserve
    by_contra hgt
    simp [FreshnessPolicy.decide, hm, hgt] at hserve
  · intro hle
    simp [FreshnessPolicy.decide, hm, hle]

/-- Claim C3, witness: an entry fetched 100 seconds ago is served under
minFresh = 100 and refetched under minFresh = 99. -/
theorem c3_freshness_boundary_witness :
    FreshnessPolicy.decide ⟨false, false, false, 100⟩ (some ⟨"p", 0⟩) 100 =
      .serveCached
    ∧ FreshnessPolicy.decide ⟨false, false, false, 99⟩ (some ⟨"p", 0⟩) 100 =
      .refetch :=
  ⟨(c3_freshness_boundary ⟨"p", 0⟩ 100 100 false (by decide)).2 (by decide),
   by decide⟩

/-- Claim C4, counterexample: with noCache and noUpdate both set and an entry
present, the policy decides Refetch and the coordinator does call
ConsensusFetcher — noUpdate alone does not universally suppress the fetch. -/
theorem c4_noupdate_counterexample :
    (CacheCoordinator.getSchema ⟨true, true, false, -1⟩
        [((ArtifactKind.schema, "s1"), ⟨"old", 0⟩)] (ArtifactKind.schema, "s1")
        (.ok "new") false 50).fetcherCalled = true := by
  decide

/-- Claim C4, amended: with noUpdate set and noCache unset, the coordinator
never calls ConsensusFetcher — a cache miss yields the StaleRequired error,
and any present entry (however stale) is served from the cache. -/
theorem c4_noupdate_no_fetch (opts : GetCacheOptions) (st : CacheStore)
    (key : CacheKey) (f : Except IndyErr String) (pf : Bool) (now : Int)
    (hU : opts.noUpdate = true) (hC : opts.noCache = false) :
    (CacheStore.get st key = none →
      CacheCoordinator.getSchema opts st key f pf now =
        ⟨.error .staleRequired, st, false⟩)
    ∧ ∀ e, CacheStore.get st key = some e →
      CacheCoordinator.getSchema opts st key f pf now =
        ⟨.ok e.payload, st, false⟩ := by
  constructor
  · intro h0
    simp [CacheCoordinator.getSchema, FreshnessPolicy.decide, h0, hU]
  · intro e he
    simp only [CacheCoordinator.getSchema, FreshnessPolicy.decide, he, hC]
    split_ifs <;> simp_all

/-- Claim C4, witness: a cache miss under noUpdate is the StaleRequired
error without a fetch. -/
theorem c4_noupdate_no_fetch_witness :
    CacheCoordinator.getSchema ⟨false, true, false, 0⟩ []
        (ArtifactKind.schema, "s") (.ok "x") false 0 =
      ⟨.error .staleRequired, [], false⟩ :=
  (c4_noupdate_no_fetch ⟨false, true, false, 0⟩ [] (ArtifactKind.schema, "s")
    (.ok "x") false 0 rfl rfl).1 rfl

/-- Claim C5, counterexample: a schema GET with noCache set but noStore unset
does write the CacheStore — the pre-existing entry for the key is overwritten
by the fetched payload, so the call is not a pure passthrough that leaves
every CacheEntry unchanged. -/
theorem c5_nocache_counterexample :
    CacheStore.get (CacheCoordinator.getSchema ⟨true, false, false, -1⟩
        [((ArtifactKind.schema, "s1"), ⟨"old", 0⟩)] (ArtifactKind.schema, "s1")
        (.ok "new") false 50).store (ArtifactKind.schema, "s1") =
      some ⟨"new", 50⟩
    ∧ CacheStore.get [((ArtifactKind.schema, "s1"), ⟨"old", 0⟩)]
        (ArtifactKind.schema, "s1") = some ⟨"old", 0⟩ := by
  constructor <;> decide

/-- Claim C5, amended: with noCache set (and noUpdate unset) the delivered
result never depends on the stored entries and the fetcher is always invoked;
but the fetched payload is still written to the CacheStore unless noStore is
also set — only with noStore set as well is the store left unchanged. -/
theorem c5_nocache_passthrough (ns : Bool) (mf : Int) (st st2 : CacheStore)
    (key : CacheKey) (f : Except IndyErr String) (pf : Bool) (now : Int) :
    (CacheCoordinator.getSchema ⟨true, false, ns, mf⟩ st key f pf now).result =
      (CacheCoordinator.getSchema ⟨true, false, ns, mf⟩ st2 key f pf now).result
    ∧ (CacheCoordinator.getSchema ⟨true, false, ns, mf⟩ st key f pf
        now).fetcherCalled = true
    ∧ (CacheCoordinator.getSchema ⟨true, false, true, mf⟩ st key f pf
        now).store = st := by
  refine ⟨?_, ?_, ?_⟩ <;>
    simp only [CacheCoordinator.getSchema, freshness_nocache_refetch] <;>
    cases f <;> simp <;> split_ifs <;> rfl

/-- Claim C6: a CacheStore put failure after a successful verified fetch does
not fail the GET — the fetched payload is still delivered and the store is
simply left as it was. -/
theorem c6_store_failure_tolerated (opts : GetCacheOptions) (st : CacheStore)
    (key : CacheKey) (p : String) (now : Int)
    (h : FreshnessPolicy.decide opts (CacheStore.get st key) now = .refetch) :
    CacheCoordinator.getSchema opts st key (.ok p) true now =
      ⟨.ok p, st, true⟩ := by
  simp only [CacheCoordinator.getSchema, h]
  split_ifs <;> rfl

/-- Claim C6, witness at a concrete refetching call. -/
theorem c6_store_failure_tolerated_witness :
    CacheCoordinator.getSchema ⟨false, false, false, 0⟩ []
        (ArtifactKind.schema, "s") (.ok "x") true 7 = ⟨.ok "x", [], true⟩ :=
  c6_store_failure_tolerated ⟨false, false, false, 0⟩ []
    (ArtifactKind.schema, "s") "x" 7 rfl

/-- Claim C7: registering a callback pair for a tag inserts or replaces the
registry entry for that tag — after any sequence of register calls ending in
one for the tag, lookup of that tag returns the most recently registered pair,
and lookups of every other tag are unaffected by that registration. -/
theorem c7_register_last_write_wins (init : SPRegistry)
    (ops : List (String × SPCallbackPair)) (tag : String)
    (pr : SPCallbackPair) :
    SPRegistry.lookup (SPRegistry.applyAll init (ops ++ [(tag, pr)])) tag =
      some pr
    ∧ ∀ t2, t2 ≠ tag →
      SPRegistry.lookup (SPRegistry.applyAll init (ops ++ [(tag, pr)])) t2 =
        SPRegistry.lookup (SPRegistry.applyAll init ops) t2 := by
  have happ : SPRegistry.applyAll init (ops ++ [(tag, pr)]) =
      SPRegistry.register (SPRegistry.applyAll init ops) tag pr := by
    simp [SPRegistry.applyAll, List.foldl_append]
  constructor
  · rw [happ]; simp [SPRegistry.lookup, SPRegistry.register]
  · intro t2 ht
    rw [happ]; simp [SPRegistry.lookup, SPRegistry.register, ht]

/-- Claim C7, witness: re-registration and independence at concrete tags. -/
theorem c7_register_last_write_wins_witness :
    SPRegistry.lookup (SPRegistry.applyAll (fun _ => none)
      ([("1", ⟨10, 11⟩)] ++ [("3", ⟨30, 31⟩)])) "3" = some ⟨30, 31⟩
    ∧ SPRegistry.lookup (SPRegistry.applyAll (fun _ => none)
      ([("1", ⟨10, 11⟩)] ++ [("3", ⟨30, 31⟩)])) "1" =
        SPRegistry.lookup (SPRegistry.applyAll (fun _ => none)
          [("1", ⟨10, 11⟩)]) "1" :=
  ⟨(c7_register_last_write_wins (fun _ => none) [("1", ⟨10, 11⟩)] "3"
      ⟨30, 31⟩).1,
   (c7_register_last_write_wins (fun _ => none) [("1", ⟨10, 11⟩)] "3"
      ⟨30, 31⟩).2 "1" (by decide)⟩

/-- Claim C8: response-metadata extraction returns the four individually
optional fields (seqNo, txnTime, lastSeqNo, lastTxnTime) for any reply, except
that a GET_VALIDATOR_INFO response is unsupported and yields an error. -/
theorem c8_response_metadata_shape (r : ReplyInfo) :
    (r.txnType ≠ GET_VALIDATOR_INFO →
      get_response_metadata r =
        .ok ⟨r.seqNo, r.txnTime, r.lastSeqNo, r.lastTxnTime⟩)
    ∧ (r.txnType = GET_VALIDATOR_INFO →
      get_response_metadata r = .error .invalidTransaction) := by
  constructor <;> intro h <;> simp [get_response_metadata, h]

/-- Claim C8, witness: an ordinary reply yields its metadata, a
GET_VALIDATOR_INFO reply yields the error. -/
theorem c8_response_metadata_shape_witness :
    get_response_metadata ⟨"1", some 5, none, some 9, none⟩ =
      .ok ⟨some 5, none, some 9, none⟩
    ∧ get_response_metadata ⟨"119", some 5, none, none, none⟩ =
      .error .invalidTransaction :=
  ⟨(c8_response_metadata_shape ⟨"1", some 5, none, some 9, none⟩).1 (by decide),
   (c8_response_metadata_shape ⟨"119", some 5, none, none, none⟩).2 rfl⟩

/-- Claim C9: the dispatcher worker fires the completion routine exactly once
per enqueued command — the completion handles are exactly the enqueued handles
in order (so each command gets exactly one outcome), and when handles are
unique while pending, no two completions ever fire for the same handle. -/
theorem c9_exactly_once_completion (q : List PendingCommand) :
    (CommandDispatcher.run q).map Completion.handle =
      q.map PendingCommand.handle
    ∧ ((q.map PendingCommand.handle).Nodup →
      ((CommandDispatcher.run q).map Completion.handle).Nodup) := by
  have hmap : ∀ l : List PendingCommand,
      (CommandDispatcher.run l).map Completion.handle =
        l.map PendingCommand.handle := by
    intro l
    induction l with
    | nil => rfl
    | cons c rest ih => simp [CommandDispatcher.run, ih]
  exact ⟨hmap q, fun h => (hmap q).symm ▸ h⟩

/-- Claim C9, witness on a concrete queue with one success and one failure. -/
theorem c9_exactly_once_completion_witness :
    (CommandDispatcher.run [⟨1, .ok "a"⟩, ⟨2, .error .transportFailure⟩]).map
        Completion.handle = [1, 2]
    ∧ ((CommandDispatcher.run [⟨1, .ok "a"⟩,
        ⟨2, .error .transportFailure⟩]).map Completion.handle).Nodup :=
  ⟨(c9_exactly_once_completion [⟨1, .ok "a"⟩,
      ⟨2, .error .transportFailure⟩]).1,
   (c9_exactly_once_completion [⟨1, .ok "a"⟩,
      ⟨2, .error .transportFailure⟩]).2 (by decide)⟩

/-- Claim C10: with valid DIDs and a callback present, both attrib request
builders return InvalidStructure synchronously and dispatch nothing when hash,
raw and enc are all null; when at least one of the three is present (and raw
parses as JSON where required) the command is dispatched with Success. -/
theorem c10_attrib_null_triple (dv jv : String → Bool) (s t : String)
    (hs : dv s = true) (ht : dv t = true) :
    indy_build_attrib_request dv jv (some s) (some t) none none none true =
      ⟨.CommonInvalidStructure, none⟩
    ∧ indy_build_get_attrib_request dv (some s) (some t) none none none true =
      ⟨.CommonInvalidStructure, none⟩
    ∧ (∀ hash raw enc : Option String,
        (match raw with | some r => jv r = true | none => True) →
        (hash.isSome ∨ raw.isSome ∨ enc.isSome) →
        indy_build_attrib_request dv jv (some s) (some t) hash raw enc true =
          ⟨.Success, some (.BuildAttribRequest s t hash raw enc)⟩)
    ∧ ∀ raw hash enc : Option String,
        (hash.isSome ∨ raw.isSome ∨ enc.isSome) →
        indy_build_get_attrib_request dv (some s) (some t) raw hash enc true =
          ⟨.Success, some (.BuildGetAttribRequest (some s) t raw hash enc)⟩ := by
  refine ⟨?_, ?_, ?_, ?_⟩
  · simp [indy_build_attrib_request, hs, ht]
  · simp [indy_build_get_attrib_request, hs, ht]
  · intro hash raw enc hraw hsome
    cases raw with
    | none =>
      cases hash with
      | none =>
        cases enc with
        | none => simp at hsome
        | some e2 => simp [indy_build_attrib_request, hs, ht]
      | some h2 => cases enc <;> simp [indy_build_attrib_request, hs, ht]
    | some r =>
      cases hash <;> cases enc <;>
        simp [indy_build_attrib_request, hs, ht, hraw]
  · intro raw hash enc hsome
    cases raw with
    | none =>
      cases hash with
      | none =>
        cases enc with
        | none => simp at hsome
        | some e2 => simp [indy_build_get_attrib_request, hs, ht]
      | some h2 => cases enc <;> simp [indy_build_get_attrib_request, hs, ht]
    | some r =>
      cases hash <;> cases enc <;>
        simp [indy_build_get_attrib_request, hs, ht]

/-- Claim C10, witness: the all-null rejection and a dispatched call at
concrete arguments. -/
theorem c10_attrib_null_triple_witness :
    indy_build_attrib_request (fun _ => true) (fun _ => true)
        (some "did1") (some "did2") none none none true =
      ⟨.CommonInvalidStructure, none⟩
    ∧ indy_build_attrib_request (fun _ => true) (fun _ => true)
        (some "did1") (some "did2") (some "h") none none true =
      ⟨.Success, some (.BuildAttribRequest "did1" "did2" (some "h") none
        none)⟩ :=
  ⟨(c10_attrib_null_triple (fun _ => true) (fun _ => true) "did1" "did2"
      rfl rfl).1,
   (c10_attrib_null_triple (fun _ => true) (fun _ => true) "did1" "did2"
      rfl rfl).2.2.1 (some "h") none none trivial (Or.inl rfl)⟩
